import Mathlib

/-!
Verification development for the querylab repository's AI-response
classifier (`parseAIResponse`, src/unnamed/part_007) and SQL safety gate
(`validateSql`, src/Backend/src/lib/services/sql/validation.ts).

The TypeScript code is shallowly embedded: strings are `List Char`
processed by executable scanners that mirror the JavaScript regular
expressions used by the source, and the external `node-sql-parser`
library (an out-of-repo collaborator) is modelled as an explicit oracle
argument supplying the AST that `parser.astify` would return.
-/

namespace QueryLab

/-- A single-quote (apostrophe) character, used to build the source's
message strings without apostrophe literals. -/
def aq : String := String.singleton (Char.ofNat 39)

/-- JavaScript whitespace class (ASCII part of the regex class used by
the source: space, tab, newline, carriage return, vertical tab, form feed). -/
def wsChar (c : Char) : Bool :=
  c = ' ' || c = '\t' || c = '\n' || c = '\r' || c = Char.ofNat 11 || c = Char.ofNat 12

/-- Drop leading JS whitespace. -/
def dropWs (l : List Char) : List Char := l.dropWhile wsChar

/-- JS `String.prototype.trim`. -/
def trimL (l : List Char) : List Char :=
  (dropWs ((dropWs l.reverse)).reverse)

/-- JS trim on `String`. -/
def trimS (s : String) : String := ⟨trimL s.data⟩

/-- ASCII lower-casing of a char list (JS `toLowerCase` restricted to ASCII). -/
def lowerL (l : List Char) : List Char := l.map Char.toLower

/-- ASCII lower-casing on `String`. -/
def lowerS (s : String) : String := ⟨lowerL s.data⟩

/-- ASCII upper-casing of a char list (JS `toUpperCase` restricted to ASCII). -/
def upperL (l : List Char) : List Char := l.map Char.toUpper

/-- ASCII upper-casing on `String`. -/
def upperS (s : String) : String := ⟨upperL s.data⟩

/-- Case-insensitive prefix test: `pat` (given pre-lowercased) is a prefix
of `l` up to ASCII case. -/
def ciStarts : List Char → List Char → Bool
  | [], _ => true
  | _ :: _, [] => false
  | p :: ps, c :: cs => p = Char.toLower c && ciStarts ps cs

/-- Case-sensitive prefix test on char lists. -/
def starts : List Char → List Char → Bool
  | [], _ => true
  | _ :: _, [] => false
  | p :: ps, c :: cs => p = c && starts ps cs

/-- Split a char list at every occurrence of one separator char, keeping
empty fragments (JS `split` with a one-char separator). -/
def splitChar (sep : Char) : List Char → List (List Char)
  | [] => [[]]
  | c :: cs =>
    if c = sep then [] :: splitChar sep cs
    else match splitChar sep cs with
      | [] => [[c]]
      | l :: ls => (c :: l) :: ls

/-- Split on newlines (JS `split('\n')`). -/
def splitLines (l : List Char) : List (List Char) := splitChar '\n' l

/-- JS `join('\n')`. -/
def joinNl : List (List Char) → List Char
  | [] => []
  | [l] => l
  | l :: ls => l ++ '\n' :: joinNl ls

/-- Count of non-blank lines of a SQL body:
`sql.split('\n').filter(line => line.trim().length > 0).length`. -/
def countNonBlank (l : List Char) : Nat :=
  ((splitLines l).filter (fun x => !(trimL x).isEmpty)).length

/-! ## Classifier data model (src/unnamed/part_007) -/

/-- The closed classification enum `AICode` of part_007. -/
inductive AICode where
  | SUCCESS
  | SCHEMA_MISMATCH
  | INVALID_REQUEST
  | COMPLEX_QUERY
  | NO_DATA
  | UNSUPPORTED_OPERATION
  | NOT_SQL_REQUEST
deriving DecidableEq, Repr

/-- The static `CODE_MESSAGES` lookup table of part_007. -/
def codeMessages : AICode → String
  | .SUCCESS => "SQL generated successfully! Review it before running."
  | .SCHEMA_MISMATCH =>
      "The requested query doesn" ++ aq ++ "t match your database schema. Please check your tables and columns."
  | .INVALID_REQUEST =>
      "Your request couldn" ++ aq ++ "t be understood. Please try rephrasing your question."
  | .COMPLEX_QUERY =>
      "This query is too complex or too long (exceeds 50 lines). Please break it into smaller parts or simplify your request."
  | .NO_DATA => "No data found matching your criteria."
  | .UNSUPPORTED_OPERATION =>
      "This operation is not supported. Only SELECT, INSERT, and UPDATE queries are allowed."
  | .NOT_SQL_REQUEST =>
      "This question is not about SQL operations. I can help you write SQL queries!"

/-- The `AICodeResponse` record returned by `parseAIResponse`; `""` models
the absent (`undefined`) value of the optional `sql`/`explanation` fields
(the source returns `sql || undefined` and `explanation || undefined`). -/
structure AICodeResponse where
  code : AICode
  message : String
  sql : String
  explanation : String
deriving DecidableEq, Repr

/-- Mutable state threaded through `parseAIResponse`'s stages:
the local variables `code`, `message`, `sql`, `explanation`. -/
structure PState where
  code : AICode
  message : String
  sql : List Char
  explanation : List Char
deriving DecidableEq, Repr

/-- The seven code names with their enum values, in the alternation order of
the source's regexes (the names are pairwise prefix-free, so alternation
order never changes the matched name). -/
def codeNameTable : List (List Char × AICode) :=
  [(("success").data, .SUCCESS),
   (("schema_mismatch").data, .SCHEMA_MISMATCH),
   (("invalid_request").data, .INVALID_REQUEST),
   (("complex_query").data, .COMPLEX_QUERY),
   (("no_data").data, .NO_DATA),
   (("unsupported_operation").data, .UNSUPPORTED_OPERATION),
   (("not_sql_request").data, .NOT_SQL_REQUEST)]

/-- Match one of the seven code names (case-insensitively) as a prefix of
`l`; returns the code and the remainder after the name. -/
def matchName (l : List Char) : Option (AICode × List Char) :=
  match codeNameTable.find? (fun pr => ciStarts pr.1 l) with
  | some pr => some (pr.2, l.drop pr.1.length)
  | none => none

/-- Code pattern 1: `^CODE:\s*(NAME)` (the name must begin right after the
maximal whitespace run, as regex backtracking forces for a letter-initial
alternation). -/
def codePat1 (t : List Char) : Option AICode :=
  if ciStarts (("code:").data) t then (matchName (dropWs (t.drop 5))).map (·.1)
  else none

/-- Code pattern 2: `^(NAME):`. -/
def codePat2 (t : List Char) : Option AICode :=
  match matchName t with
  | some (c, r) => if r.head? = some ':' then some c else none
  | none => none

/-- Code pattern 3: `\[(NAME)\]` anywhere (leftmost occurrence). -/
def codePat3 : List Char → Option AICode
  | [] => none
  | c :: cs =>
    if c = '[' then
      match matchName cs with
      | some (cd, r) => if r.head? = some ']' then some cd else codePat3 cs
      | none => codePat3 cs
    else codePat3 cs

/-- Code pattern 4: `^(NAME)\s*-`. -/
def codePat4 (t : List Char) : Option AICode :=
  match matchName t with
  | some (c, r) => if (dropWs r).head? = some '-' then some c else none
  | none => none

/-- The code-marker detection loop of part_007 lines 50-81: the four
pattern families are tried in order and the first match wins (each pattern
only ever captures one of the seven known names, so the source's
`includes` validation always succeeds). -/
def detectCode (t : List Char) : Option AICode :=
  (codePat1 t).orElse fun _ =>
    (codePat2 t).orElse fun _ =>
      (codePat3 t).orElse fun _ => codePat4 t

/-- Initial state of `parseAIResponse` (lines 57-81): `code` defaults to
`SUCCESS`, `message` to the `SUCCESS` message, and a detected marker
overrides both. -/
def initState (t : List Char) : PState :=
  match detectCode t with
  | some c => ⟨c, codeMessages c, [], []⟩
  | none => ⟨.SUCCESS, codeMessages .SUCCESS, [], []⟩

/-! ## SQL-body extraction scanners

Each scanner mirrors one regular expression of part_007, with the
backtracking of `\s*` / lazy groups resolved as the JS engine would. -/

/-- `/^NOT_SQL_REQUEST\s*(?:\n|$)/i`: after the literal, the whitespace run
must reach end-of-string or contain a newline for `\s*(?:\n|$)` to succeed. -/
def notSqlStartTest (x : List Char) : Bool :=
  ciStarts (("not_sql_request").data) x &&
    (let r := x.drop 15
     let w := r.takeWhile wsChar
     w.length = r.length || w.contains '\n')

/-- `/^NOT_SQL_REQUEST\s*\n\s*EXPLANATION:\s*(.+?)(?:\n\n|$)/is` used as a
test: the whitespace run after the literal must contain a newline,
`EXPLANATION:` must start at the first non-whitespace position, and at
least one character must follow the colon (the lazy `(.+?)` needs it;
`(?:\n\n|$)` then always closes the match). -/
def notSqlWithExplTest (x : List Char) : Bool :=
  ciStarts (("not_sql_request").data) x &&
    (let r := x.drop 15
     let w := r.takeWhile wsChar
     w.contains '\n' && ciStarts (("explanation:").data) (r.drop w.length) &&
       !(r.drop (w.length + 12)).isEmpty)

/-- Take characters up to (excluding) the first `"\n\n"` occurrence — the
stopping point of the lazy `(.+?)(?:\n\n|$)` groups (dot-all mode). -/
def cutAtNlNl : List Char → List Char
  | [] => []
  | c :: cs => if c = '\n' && cs.head? = some '\n' then [] else c :: cutAtNlNl cs

/-- Body of `/EXPLANATION:\s*(.+?)(?:\n\n|$)/is` at one occurrence whose
after-colon remainder is `r`: greedy `\s*` skips the whitespace run, the
lazy group stops at the first `"\n\n"` (or takes a single whitespace char
when nothing else follows, which trims to the same empty result), and the
source immediately trims the capture. -/
def explBody (r : List Char) : List Char :=
  trimL (cutAtNlNl (dropWs r))

/-- Leftmost-occurrence search for `/EXPLANATION:\s*(.+?)(?:\n\n|$)/is`:
an occurrence with nothing after the colon cannot complete the required
`(.+?)`, and no later occurrence can exist past it. -/
def explanationExtract : List Char → Option (List Char)
  | [] => none
  | l@(_ :: cs) =>
    if ciStarts (("explanation:").data) l then
      let r := l.drop 12
      if r.isEmpty then none else some (explBody r)
    else explanationExtract cs

/-- Leftmost-occurrence search for
`/NOT_SQL_REQUEST\s*\n\s*EXPLANATION:\s*(.+?)(?:\n\n|$)/is` (line 220 of
part_007, applied to the raw response). -/
def notSqlExplanationExtract : List Char → Option (List Char)
  | [] => none
  | l@(_ :: cs) =>
    if ciStarts (("not_sql_request").data) l then
      let r := l.drop 15
      let w := r.takeWhile wsChar
      if w.contains '\n' && ciStarts (("explanation:").data) (r.drop w.length) &&
          !(r.drop (w.length + 12)).isEmpty then
        some (explBody (r.drop (w.length + 12)))
      else notSqlExplanationExtract cs
    else notSqlExplanationExtract cs

/-- Chars before the first occurrence of three backticks, or `none` when
no closing fence exists. -/
def findTicks : List Char → Option (List Char)
  | [] => none
  | l@(c :: cs) =>
    if starts (("```").data) l then some []
    else (findTicks cs).map (c :: ·)

/-- `/```sql\n?([\s\S]*?)\n?```/i` (leftmost match): the body between the
first viable opening fence and the next three backticks; the surrounding
optional newlines are subsumed by the `trim` the source applies to the
capture, so the raw slice is returned and trimmed by the caller. -/
def sqlBlockExtract : List Char → Option (List Char)
  | [] => none
  | l@(_ :: cs) =>
    if ciStarts (("```sql").data) l then
      match findTicks (l.drop 6) with
      | some body => some body
      | none => sqlBlockExtract cs
    else sqlBlockExtract cs

/-- Lazy stop of `([\s\S]*?)(?=\n\s*EXPLANATION:|$)`: take characters
until a newline followed (after a whitespace run) by `EXPLANATION:`. -/
def cutAtExpl : List Char → List Char
  | [] => []
  | c :: cs =>
    if c = '\n' && ciStarts (("explanation:").data) (dropWs cs) then []
    else c :: cutAtExpl cs

/-- `/SQL_STATEMENT:\s*([\s\S]*?)(?=\n\s*EXPLANATION:|$)/i` (leftmost
occurrence; the `$` alternative makes the first occurrence always match):
greedy `\s*` skips the whitespace run after the colon, then the lazy body
runs to the `EXPLANATION:` lookahead or the end. -/
def sqlStatementExtract : List Char → Option (List Char)
  | [] => none
  | l@(_ :: cs) =>
    if ciStarts (("sql_statement:").data) l then
      some (cutAtExpl (dropWs (l.drop 14)))
    else sqlStatementExtract cs

/-- `/^NOT_SQL_REQUEST\s*$/i` on one line (lines contain no newline). -/
def lineIsNSR (line : List Char) : Bool :=
  ciStarts (("not_sql_request").data) line && (line.drop 15).all wsChar

/-- `/^(SELECT|INSERT|UPDATE|DELETE|CREATE|ALTER|DROP|WITH|TRUNCATE)/i`. -/
def verbStart (line : List Char) : Bool :=
  [("select"), ("insert"), ("update"), ("delete"), ("create"), ("alter"),
   ("drop"), ("with"), ("truncate")].any (fun v => ciStarts v.data line)

/-- `/^(CODE|SQL_STATEMENT):/i`. -/
def markerLine2 (line : List Char) : Bool :=
  ciStarts (("code:").data) line || ciStarts (("sql_statement:").data) line

/-- `/^(CODE|RESPONSE|EXPLANATION|SQL_STATEMENT):/i`. -/
def markerLine4 (line : List Char) : Bool :=
  ciStarts (("code:").data) line || ciStarts (("response:").data) line ||
  ciStarts (("explanation:").data) line || ciStarts (("sql_statement:").data) line

/-! ## `parseAIResponse` stages -/

/-- The line-by-line fallback scan of part_007 lines 139-180: returns the
(possibly NSR-overridden) code together with the collected SQL lines.
The loop-top `code === 'NOT_SQL_REQUEST'` break is threaded faithfully
even though the entry code is never NSR (the outer branch guards it) and
the only in-loop override breaks immediately. -/
def scanLoop (code : AICode) : List (List Char) → Bool → List (List Char) →
    AICode × List (List Char)
  | [], _, acc => (code, acc.reverse)
  | line :: ls, sqlStart, acc =>
    if ciStarts (("explanation:").data) line then (code, acc.reverse)
    else if markerLine2 line then scanLoop code ls sqlStart acc
    else if code = .NOT_SQL_REQUEST then (code, acc.reverse)
    else if lineIsNSR line then (.NOT_SQL_REQUEST, acc.reverse)
    else if sqlStart then
      if !(trimL line).isEmpty && !markerLine4 line then
        scanLoop code ls true (line :: acc)
      else scanLoop code ls true acc
    else if verbStart line then scanLoop code ls true (line :: acc)
    else scanLoop code ls false acc

/-- The repeated NOT_SQL_REQUEST override block (part_007 lines 97-105,
125-133 and 189-198): force code/message to NSR, clear `sql`, and salvage
an explanation from the candidate SQL text when none is set yet. -/
def nsrOverride (ext : List Char) (st : PState) : PState :=
  { st with
    code := .NOT_SQL_REQUEST
    message := codeMessages .NOT_SQL_REQUEST
    sql := []
    explanation :=
      match explanationExtract ext with
      | some e => if st.explanation = [] then e else st.explanation
      | none => st.explanation }

/-- SQL-body extraction (part_007 lines 88-206): skipped when the code is
already NSR; otherwise fenced block, then `SQL_STATEMENT:` marker, then
the line scan, each candidate checked for the NSR override. -/
def extractStage (t : List Char) (st : PState) : PState :=
  if st.code = .NOT_SQL_REQUEST then { st with sql := [] }
  else
    match sqlBlockExtract t with
    | some body =>
      let ext := trimL body
      if notSqlStartTest ext || notSqlWithExplTest ext then nsrOverride ext st
      else { st with sql := ext }
    | none =>
      match sqlStatementExtract t with
      | some body =>
        let ext := trimL body
        if st.code = .NOT_SQL_REQUEST then { st with sql := [] }
        else if ext = [] then { st with sql := [] }
        else if notSqlStartTest ext || notSqlWithExplTest ext then nsrOverride ext st
        else { st with sql := ext }
      | none =>
        let res := scanLoop st.code (splitLines t) false []
        let st2 :=
          if res.1 = .NOT_SQL_REQUEST then
            { st with code := .NOT_SQL_REQUEST
                      message := codeMessages .NOT_SQL_REQUEST, sql := [] }
          else st
        if res.2 ≠ [] then
          let ext := trimL (joinNl res.2)
          if st2.code = .NOT_SQL_REQUEST then { st2 with sql := [] }
          else if notSqlStartTest ext || notSqlWithExplTest ext then nsrOverride ext st2
          else { st2 with sql := ext }
        else st2

/-- Explanation extraction over the whole trimmed response (lines 209-212);
a match overwrites any explanation salvaged during extraction. -/
def explStage (t : List Char) (st : PState) : PState :=
  match explanationExtract t with
  | some e => { st with explanation := e }
  | none => st

/-- `response.replace(/^(NOT_SQL_REQUEST|CODE|SQL_STATEMENT)[:\[]/i, '')`:
the three alternatives are mutually exclusive at position 0, and the
delimiter char must follow for the anchored match to happen. -/
def replaceMarkerHead (s : List Char) : List Char :=
  let tryOne := fun (w : List Char) (s : List Char) =>
    if ciStarts w s &&
        ((s.drop w.length).head? = some ':' || (s.drop w.length).head? = some '[') then
      some (s.drop (w.length + 1))
    else none
  match tryOne (("not_sql_request").data) s with
  | some r => r
  | none =>
    match tryOne (("code").data) s with
    | some r => r
    | none =>
      match tryOne (("sql_statement").data) s with
      | some r => r
      | none => s

/-- `.replace(/^NOT_SQL_REQUEST\s*\n?/i, '')`: the greedy `\s*` consumes
the whole whitespace run and the optional newline then matches empty. -/
def replaceNsrHead (s : List Char) : List Char :=
  if ciStarts (("not_sql_request").data) s then dropWs (s.drop 15) else s

/-- `.replace(/SQL_STATEMENT:\s*NOT_SQL_REQUEST\s*\n?/i, '')` (leftmost
occurrence; the inter-literal `\s*` must land exactly on the letter-initial
literal, so it consumes the maximal whitespace run). -/
def replaceSqlStmtNsr : List Char → List Char
  | [] => []
  | l@(c :: cs) =>
    if ciStarts (("sql_statement:").data) l then
      let r := dropWs (l.drop 14)
      if ciStarts (("not_sql_request").data) r then dropWs (r.drop 15)
      else c :: replaceSqlStmtNsr cs
    else c :: replaceSqlStmtNsr cs

/-- The NOT_SQL_REQUEST post-pass (part_007 lines 214-235): force `sql`
empty and, when no explanation is set and the raw response is non-blank,
salvage one from the `NOT_SQL_REQUEST\nEXPLANATION:` pattern or from the
marker-stripped remainder when it exceeds 10 characters. -/
def notSqlStage (response : List Char) (st : PState) : PState :=
  if st.code = .NOT_SQL_REQUEST then
    let st1 : PState := { st with sql := [] }
    if st1.explanation = [] ∧ trimL response ≠ [] then
      match notSqlExplanationExtract response with
      | some e => { st1 with explanation := e }
      | none =>
        let cleaned := trimL (replaceSqlStmtNsr (replaceNsrHead (replaceMarkerHead response)))
        if cleaned ≠ [] ∧ 10 < cleaned.length then { st1 with explanation := cleaned }
        else st1
    else st1
  else st

/-- The synthesized COMPLEX_QUERY explanation (part_007 lines 245 and 269). -/
def synthExpl (n : Nat) : List Char :=
  (("The generated SQL query is ").data) ++ (Nat.repr n).data ++
    ((" lines long, which exceeds the maximum limit of 50 lines. Please break your request into smaller, simpler queries.").data)

/-- The 50-line ceiling check (part_007 lines 237-248, repeated at 261-272):
when the code is `SUCCESS` and the SQL body has more than 50 non-blank
lines, coerce to `COMPLEX_QUERY`, clear the SQL and synthesize an
explanation when none is set. -/
def lineCountStage (st : PState) : PState :=
  if st.sql ≠ [] ∧ st.code = .SUCCESS then
    let n := countNonBlank st.sql
    if 50 < n then
      ⟨.COMPLEX_QUERY, codeMessages .COMPLEX_QUERY, [],
        if st.explanation = [] then synthExpl n else st.explanation⟩
    else st
  else st

/-- `response.replace(/^(SUCCESS|...|NOT_SQL_REQUEST)[:\[]/i, '')` of the
fallback (line 253): strip a leading code name with its delimiter. -/
def stripCodeName (s : List Char) : List Char :=
  match matchName s with
  | some (_, r) =>
    if r.head? = some ':' || r.head? = some '[' then r.drop 1 else s
  | none => s

/-- The no-SQL fallback (part_007 lines 250-259): when `sql` is still
empty, the response is non-blank and the code is not NSR, use the
marker-stripped trimmed response as SQL when it exceeds 10 characters. -/
def fallbackStage (response : List Char) (st : PState) : PState :=
  if st.sql = [] ∧ trimL response ≠ [] ∧ st.code ≠ .NOT_SQL_REQUEST then
    let cleaned := trimL (stripCodeName response)
    if cleaned ≠ [] ∧ 10 < cleaned.length then { st with sql := cleaned }
    else st
  else st

/-- The final return (part_007 lines 274-279): `sql` is cleared for
NOT_SQL_REQUEST and COMPLEX_QUERY; `'' || undefined` collapses to the
empty value in this model. -/
def finalize (st : PState) : AICodeResponse :=
  ⟨st.code, st.message,
    if st.code = .NOT_SQL_REQUEST ∨ st.code = .COMPLEX_QUERY then "" else ⟨st.sql⟩,
    ⟨st.explanation⟩⟩

/-- State after detection, extraction, explanation extraction and the NSR
post-pass — the point right before the first 50-line check. -/
def preCountState (response : List Char) : PState :=
  notSqlStage response
    (explStage (trimL response) (extractStage (trimL response) (initState (trimL response))))

/-- Whole pipeline on a char list. -/
def parseCore (response : List Char) : AICodeResponse :=
  finalize (lineCountStage (fallbackStage response (lineCountStage (preCountState response))))

/-- `parseAIResponse` of part_007, embedded end to end. -/
def parseAIResponse (response : String) : AICodeResponse :=
  parseCore response.data

/-! ## SQL safety gate (src/Backend/src/lib/services/sql/validation.ts)

The external `node-sql-parser` library is modelled as an oracle argument:
`validateSql` receives the result `parser.astify(sql)` would produce — the
AST on success (an `AstifyResult`) or the thrown message on failure — and
the AST node type records exactly the fields `extractTableNames` walks. -/

/-- The value of a `table` property inside one `from` item: either a bare
string or the nested `{table: {table: name}}` alias wrapper (the payload
is the stringified inner value). -/
inductive FromTable where
  | str (s : String)
  | nested (s : String)
deriving DecidableEq, Repr

/-- One entry of a node's `from` clause, restricted to the fields
`extractTableNames` reads; `exprTable` is the stringified
`fromItem.expr.table` of a join/subquery wrapper, `none` when absent or
when the entry is not an object (such entries contribute nothing). -/
structure FromItem where
  table : Option FromTable
  exprTable : Option String
deriving DecidableEq, Repr

/-- One entry of an INSERT/UPDATE-style node's top-level `table` property. -/
structure TableItem where
  table : Option String
deriving DecidableEq, Repr

/-- A parsed statement node: the `type` tag plus the clause fields walked
by `extractTableNames` (a `none` clause models an absent or falsy
property; a single non-array `from` object is the singleton list). -/
structure ASTNode where
  type : String
  fromClause : Option (List FromItem)
  tableClause : Option (List TableItem)
deriving DecidableEq, Repr

/-- One element of an array-shaped `astify` result, which the source's
flattening loop (validation.ts lines 171-178) allows to be itself an array. -/
inductive AstElem where
  | node (n : ASTNode)
  | list (l : List ASTNode)
deriving DecidableEq, Repr

/-- The shape of `parser.astify`'s return value: one node or an array of
(possibly nested) nodes. -/
inductive AstifyResult where
  | single (n : ASTNode)
  | arr (l : List AstElem)
deriving DecidableEq, Repr

/-- `ValidationResult` of validation.ts: `{ok:true, statements}` or
`{ok:false, error}`. -/
inductive ValidationResult where
  | ok (statements : AstifyResult)
  | err (error : String)
deriving DecidableEq, Repr

/-- `ALLOWED_TYPES` in insertion order. -/
def ALLOWED_TYPES : List String :=
  [("select"), ("insert"), ("update"), ("delete"), ("create"), ("drop"),
   ("alter"), ("truncate"), ("with")]

/-- JS word character (`\w` = `[A-Za-z0-9_]`). -/
def isWordChar (c : Char) : Bool := c.isAlphanum || c = '_'

/-- A keyword blocked pattern `\bFIRST\s+SECOND\b`-style: word boundary,
first keyword, `\s+`, second keyword (empty for the `GRANT`/`REVOKE`
patterns, which end at `\s+`), and optionally a trailing word boundary. -/
structure KwPat where
  first : List Char
  second : List Char
  trailB : Bool
deriving DecidableEq, Repr

/-- Match a keyword pattern at the head of `l` (already lower-cased),
where `prev` is the char before `l` for the leading `\b` test; the
letter-initial second keyword forces `\s+` to the maximal whitespace run. -/
def kwMatchAt (p : KwPat) (prev : Option Char) (l : List Char) : Bool :=
  (match prev with | none => true | some c => !isWordChar c) &&
  starts p.first l &&
  (let r := l.drop p.first.length
   let w := r.takeWhile wsChar
   decide (1 ≤ w.length) && starts p.second (r.drop w.length) &&
   (if p.trailB then
      match (r.drop (w.length + p.second.length)).head? with
      | none => true
      | some c => !isWordChar c
    else true))

/-- Search a keyword pattern anywhere in the (lower-cased) text. -/
def kwSearch (p : KwPat) : Option Char → List Char → Bool
  | _, [] => false
  | prev, c :: cs => kwMatchAt p prev (c :: cs) || kwSearch p (some c) cs

/-- Plain substring test (for the `/\\copy/i` pattern). -/
def containsSeq (pat : List Char) : List Char → Bool
  | [] => pat.isEmpty
  | l@(_ :: cs) => starts pat l || containsSeq pat cs

/-- One blocked pattern: a keyword pattern or a plain substring. -/
inductive BPat where
  | kw (p : KwPat)
  | sub (pat : List Char)
deriving DecidableEq, Repr

/-- Test one blocked pattern against the lower-cased raw SQL text. -/
def bpatMatch (low : List Char) : BPat → Bool
  | .kw p => kwSearch p none low
  | .sub pat => containsSeq pat low

/-- `BLOCKED_PATTERNS` of validation.ts lines 58-69, in source order. -/
def BLOCKED_PATTERNS : List (BPat × String) :=
  [(.kw ⟨("copy").data, ("from").data, true⟩, ("COPY FROM")),
   (.kw ⟨("copy").data, ("to").data, true⟩, ("COPY TO")),
   (.sub ("\\copy").data, ("\\COPY")),
   (.kw ⟨("create").data, ("extension").data, true⟩, ("CREATE EXTENSION")),
   (.kw ⟨("grant").data, [], false⟩, ("GRANT")),
   (.kw ⟨("revoke").data, [], false⟩, ("REVOKE")),
   (.kw ⟨("create").data, ("user").data, true⟩, ("CREATE USER")),
   (.kw ⟨("create").data, ("role").data, true⟩, ("CREATE ROLE")),
   (.kw ⟨("drop").data, ("user").data, true⟩, ("DROP USER")),
   (.kw ⟨("drop").data, ("role").data, true⟩, ("DROP ROLE"))]

/-- First blocked pattern matching the raw SQL text, with its label
(the source's inner `for (const blocked of BLOCKED_PATTERNS)` loop). -/
def blockedFirstMatch (sql : String) : Option String :=
  ((BLOCKED_PATTERNS).find? (fun pr => bpatMatch (lowerL sql.data) pr.1)).map (·.2)

/-- Table names referenced by one node (`extractTableNames`, validation.ts
lines 91-130): `from`-clause tables (bare and nested, with JS truthiness
skipping empty strings), `expr.table` sub-nodes, then the top-level
`table` property entries. -/
def extractTableNames (node : ASTNode) : List String :=
  let fromPart :=
    match node.fromClause with
    | none => []
    | some items =>
      items.foldr (fun it acc =>
        (match it.table with
         | some (.str s) => if s ≠ "" then [s] else []
         | some (.nested s) => if s ≠ "" then [s] else []
         | none => []) ++
        (match it.exprTable with
         | some s => if s ≠ "" then [s] else []
         | none => []) ++ acc) []
  let tablePart :=
    match node.tableClause with
    | none => []
    | some items =>
      items.foldr (fun it acc =>
        (match it.table with
         | some s => if s ≠ "" then [s] else []
         | none => []) ++ acc) []
  fromPart ++ tablePart

/-- Comma join (`Array.prototype.join(', ')`). -/
def commaJoin : List String → String
  | [] => ""
  | [s] => s
  | s :: ss => s ++ ", " ++ commaJoin ss

/-- The unsupported-statement-type rejection message. -/
def typeErrMsg (ty : String) : String :=
  "Statement type " ++ aq ++ ty ++ aq ++ " is not supported. Supported types: " ++
    upperS (commaJoin ALLOWED_TYPES) ++ "."

/-- The blocked-operation rejection message. -/
def blockedErrMsg (name : String) : String :=
  "Operation " ++ aq ++ name ++ aq ++ " is not allowed in PGlite (browser environment)."

/-- The disallowed-table rejection message. -/
def tableErrMsg (t : String) (allowed : List String) : String :=
  "Table " ++ aq ++ t ++ aq ++ " is not allowed. Allowed tables: " ++ commaJoin allowed

/-- `parseSqlToAst` (validation.ts lines 76-84): wrap a parser throw as
`SQL parse error: <message>`. -/
def parseSqlToAst (oracle : Except String AstifyResult) : Except String AstifyResult :=
  match oracle with
  | .ok a => .ok a
  | .error m => .error (("SQL parse error: ") ++ m)

/-- Flattening of the astify result into a flat node list (lines 167-178). -/
def flattenAst : AstifyResult → List ASTNode
  | .single n => [n]
  | .arr l => l.foldr (fun e acc =>
      match e with
      | .node n => n :: acc
      | .list ns => ns ++ acc) []

/-- The semicolon-split pre-check list (lines 149-152):
`sql.split(';').map(s => s.trim()).filter(Boolean)`. -/
def stmtsOf (sql : String) : List String :=
  (((splitChar ';' sql.data).map (fun l => (⟨trimL l⟩ : String))).filter (fun s => s ≠ ""))

/-- One iteration of the validation loop (lines 181-214) on one node:
statement-kind allow-list, blocked patterns over the whole raw text, then
the optional table allow-list; returns the rejection reason, if any. -/
def checkNode (sql : String) (allowedTables : Option (List String))
    (node : ASTNode) : Option String :=
  let ty := lowerS node.type
  if ty ∈ ALLOWED_TYPES then
    match blockedFirstMatch sql with
    | some name => some (blockedErrMsg name)
    | none =>
      match allowedTables with
      | some ts =>
        if ts ≠ [] then
          match (extractTableNames node).find? (fun t => decide (t ∉ ts)) with
          | some t => some (tableErrMsg t ts)
          | none => none
        else none
      | none => none
  else some (typeErrMsg ty)

/-- The `for (const node of nodes)` loop: the first rejection wins,
a clean pass over every node accepts. -/
def checkNodes (sql : String) (allowedTables : Option (List String)) :
    List ASTNode → Option String
  | [] => none
  | node :: rest =>
    match checkNode sql allowedTables node with
    | some e => some e
    | none => checkNodes sql allowedTables rest

/-- `validateSql` of validation.ts, with `parser.astify`'s behaviour on
this input supplied as the `oracle` argument. -/
def validateSql (sql : String) (allowedTables : Option (List String))
    (oracle : Except String AstifyResult) : ValidationResult :=
  if sql = "" then .err ("Empty SQL")
  else if stmtsOf sql = [] then .err ("Empty SQL")
  else
    match parseSqlToAst oracle with
    | .error e => .err e
    | .ok ast =>
      match checkNodes sql allowedTables (flattenAst ast) with
      | some e => .err e
      | none => .ok ast

/-! ## General lemmas about the classifier pipeline -/

theorem finalize_code (st : PState) : (finalize st).code = st.code := rfl

theorem finalize_message (st : PState) : (finalize st).message = st.message := rfl

theorem finalize_sql_of (st : PState)
    (h : st.code = .NOT_SQL_REQUEST ∨ st.code = .COMPLEX_QUERY) :
    (finalize st).sql = "" := by
  unfold finalize
  rw [if_pos h]

theorem countNonBlank_nil : countNonBlank [] = 0 := by decide

/-- The fallback never changes the code. -/
theorem fallbackStage_code (r : List Char) (st : PState) :
    (fallbackStage r st).code = st.code := by
  unfold fallbackStage
  repeat' first | rfl | split | dsimp only

/-- The fallback never changes the message. -/
theorem fallbackStage_message (r : List Char) (st : PState) :
    (fallbackStage r st).message = st.message := by
  unfold fallbackStage
  repeat' first | rfl | split | dsimp only

/-- The fallback never changes the explanation. -/
theorem fallbackStage_explanation (r : List Char) (st : PState) :
    (fallbackStage r st).explanation = st.explanation := by
  unfold fallbackStage
  repeat' first | rfl | split | dsimp only

/-- The 50-line check is inert when the code is not `SUCCESS`. -/
theorem lineCountStage_of_ne (st : PState) (h : st.code ≠ .SUCCESS) :
    lineCountStage st = st := by
  unfold lineCountStage
  rw [if_neg (fun hc => h hc.2)]

/-- The 50-line check fires on a `SUCCESS` state whose SQL body has more
than 50 non-blank lines. -/
theorem lineCountStage_trigger (st : PState) (hc : st.code = .SUCCESS)
    (hn : 50 < countNonBlank st.sql) :
    lineCountStage st = ⟨.COMPLEX_QUERY, codeMessages .COMPLEX_QUERY, [],
      if st.explanation = [] then synthExpl (countNonBlank st.sql) else st.explanation⟩ := by
  have hne : st.sql ≠ [] := by
    intro he
    rw [he, countNonBlank_nil] at hn
    omega
  unfold lineCountStage
  rw [if_pos ⟨hne, hc⟩]
  simp only []
  rw [if_pos hn]

/-- Every stage keeps the message in sync with the code: `initState`. -/
theorem initState_inv (t : List Char) :
    (initState t).message = codeMessages (initState t).code := by
  unfold initState
  cases detectCode t <;> rfl

/-- The NSR override writes the matching message. -/
theorem nsrOverride_inv (ext : List Char) (st : PState) :
    (nsrOverride ext st).message = codeMessages (nsrOverride ext st).code := rfl

/-- Extraction keeps the message in sync with the code. -/
theorem extractStage_inv (t : List Char) (st : PState)
    (h : st.message = codeMessages st.code) :
    (extractStage t st).message = codeMessages (extractStage t st).code := by
  unfold extractStage
  repeat' first | exact h | rfl | split | dsimp only

/-- Explanation extraction keeps the message in sync with the code. -/
theorem explStage_inv (t : List Char) (st : PState)
    (h : st.message = codeMessages st.code) :
    (explStage t st).message = codeMessages (explStage t st).code := by
  unfold explStage
  split <;> exact h

/-- The NSR post-pass keeps the message in sync with the code. -/
theorem notSqlStage_inv (r : List Char) (st : PState)
    (h : st.message = codeMessages st.code) :
    (notSqlStage r st).message = codeMessages (notSqlStage r st).code := by
  unfold notSqlStage
  repeat' first | exact h | rfl | split | dsimp only

/-- The 50-line check keeps the message in sync with the code. -/
theorem lineCountStage_inv (st : PState)
    (h : st.message = codeMessages st.code) :
    (lineCountStage st).message = codeMessages (lineCountStage st).code := by
  unfold lineCountStage
  repeat' first | exact h | rfl | split | dsimp only

/-- The fallback keeps the message in sync with the code. -/
theorem fallbackStage_inv (r : List Char) (st : PState)
    (h : st.message = codeMessages st.code) :
    (fallbackStage r st).message = codeMessages (fallbackStage r st).code := by
  rw [fallbackStage_message, fallbackStage_code]
  exact h

/-- The classifier's output message always equals the static table entry
for its output code. -/
theorem parseCore_inv (r : List Char) :
    (parseCore r).message = codeMessages (parseCore r).code := by
  unfold parseCore preCountState
  exact lineCountStage_inv _ (fallbackStage_inv _ _ (lineCountStage_inv _
    (notSqlStage_inv _ _ (explStage_inv _ _ (extractStage_inv _ _ (initState_inv _))))))

/-! ## General lemmas about the safety gate -/

/-- When the pre-checks pass, `validateSql` on a successful parse is the
outcome of the node loop. -/
theorem validateSql_ok_eq (sql : String) (a : Option (List String))
    (ast : AstifyResult) (h1 : sql ≠ "") (h2 : stmtsOf sql ≠ []) :
    validateSql sql a (.ok ast) =
      (match checkNodes sql a (flattenAst ast) with
       | some e => .err e
       | none => .ok ast) := by
  unfold validateSql
  rw [if_neg h1, if_neg h2]
  rfl

/-- When the pre-checks pass, a parser throw is wrapped and rejected. -/
theorem validateSql_parse_error (sql : String) (a : Option (List String))
    (e : String) (h1 : sql ≠ "") (h2 : stmtsOf sql ≠ []) :
    validateSql sql a (.error e) = .err (("SQL parse error: ") ++ e) := by
  unfold validateSql
  rw [if_neg h1, if_neg h2]
  rfl

/-- An accepting `validateSql` run means the node loop found nothing. -/
theorem validateSql_ok_checkNodes (sql : String) (a : Option (List String))
    (ast sts : AstifyResult) (h : validateSql sql a (.ok ast) = .ok sts) :
    checkNodes sql a (flattenAst ast) = none := by
  unfold validateSql at h
  by_cases h1 : sql = ""
  · rw [if_pos h1] at h; exact absurd h (by simp)
  rw [if_neg h1] at h
  by_cases h2 : stmtsOf sql = []
  · rw [if_pos h2] at h; exact absurd h (by simp)
  rw [if_neg h2] at h
  revert h
  show (match checkNodes sql a (flattenAst ast) with
        | some e => ValidationResult.err e
        | none => ValidationResult.ok ast) = .ok sts → _
  cases hc : checkNodes sql a (flattenAst ast) with
  | some e => intro h; exact absurd h (by simp)
  | none => intro _; rfl

/-- A clean single-node check means its statement kind was allow-listed. -/
theorem checkNode_none_type (sql : String) (a : Option (List String))
    (n : ASTNode) (h : checkNode sql a n = none) :
    lowerS n.type ∈ ALLOWED_TYPES := by
  unfold checkNode at h
  dsimp only at h
  by_cases hty : lowerS n.type ∈ ALLOWED_TYPES
  · exact hty
  · rw [if_neg hty] at h
    exact absurd h (by simp)

/-- A clean single-node check means no blocked pattern matched the raw text. -/
theorem checkNode_none_blocked (sql : String) (a : Option (List String))
    (n : ASTNode) (h : checkNode sql a n = none) :
    blockedFirstMatch sql = none := by
  have hty := checkNode_none_type sql a n h
  unfold checkNode at h
  dsimp only at h
  rw [if_pos hty] at h
  cases hb : blockedFirstMatch sql with
  | some name => rw [hb] at h; exact absurd h (by simp)
  | none => rfl

/-- A clean single-node check under a non-empty table allow-list means
every table the node references is a member. -/
theorem checkNode_none_tables (sql : String) (ts : List String)
    (n : ASTNode) (hts : ts ≠ []) (h : checkNode sql (some ts) n = none) :
    ∀ x ∈ extractTableNames n, x ∈ ts := by
  have hty := checkNode_none_type sql (some ts) n h
  have hb := checkNode_none_blocked sql (some ts) n h
  unfold checkNode at h
  dsimp only at h
  rw [if_pos hty, hb, if_pos hts] at h
  intro x hx
  cases hf : (extractTableNames n).find? (fun t => decide (t ∉ ts)) with
  | some y => rw [hf] at h; exact absurd h (by simp)
  | none =>
    have := List.find?_eq_none.mp hf x hx
    simpa using this

/-- A single-node check with an allowed kind, no blocked match and a
disallowed referenced table rejects with the first offending table. -/
theorem checkNode_table_reject (sql : String) (ts : List String)
    (n : ASTNode) (hts : ts ≠ []) (hty : lowerS n.type ∈ ALLOWED_TYPES)
    (hb : blockedFirstMatch sql = none) (y : String)
    (hf : (extractTableNames n).find? (fun t => decide (t ∉ ts)) = some y) :
    checkNode sql (some ts) n = some (tableErrMsg y ts) := by
  unfold checkNode
  dsimp only
  rw [if_pos hty, hb, if_pos hts, hf]

/-- A clean loop means every node's check was clean. -/
theorem checkNodes_none (sql : String) (a : Option (List String)) :
    ∀ l : List ASTNode, checkNodes sql a l = none →
      ∀ n ∈ l, checkNode sql a n = none := by
  intro l
  induction l with
  | nil => intro _ n hn; cases hn
  | cons hd tl ih =>
    intro h n hn
    unfold checkNodes at h
    cases hc : checkNode sql a hd with
    | some e => rw [hc] at h; exact absurd h (by simp)
    | none =>
      rw [hc] at h
      rcases List.mem_cons.mp hn with hn | hn
      · subst hn; exact hc
      · exact ih h n hn

/-- When every statement kind is allowed, no blocked pattern matches, and
some statement references a table outside the non-empty allow-list, the
node loop rejects naming an offending table. -/
theorem checkNodes_table_reject (sql : String) (ts : List String) (hts : ts ≠ [])
    (hb : blockedFirstMatch sql = none) :
    ∀ l : List ASTNode, (∀ n ∈ l, lowerS n.type ∈ ALLOWED_TYPES) →
      (∃ n ∈ l, ∃ x ∈ extractTableNames n, x ∉ ts) →
      ∃ x, x ∉ ts ∧ (∃ n ∈ l, x ∈ extractTableNames n) ∧
        checkNodes sql (some ts) l = some (tableErrMsg x ts) := by
  intro l
  induction l with
  | nil => rintro _ ⟨n, hn, _⟩; cases hn
  | cons hd tl ih =>
    rintro hall ⟨n, hn, x, hx, hxts⟩
    have hty : lowerS hd.type ∈ ALLOWED_TYPES := hall hd (List.mem_cons_self _ _)
    cases hf : (extractTableNames hd).find? (fun t => decide (t ∉ ts)) with
    | some y =>
      refine ⟨y, ?_, ⟨hd, List.mem_cons_self _ _, List.mem_of_find?_eq_some hf⟩, ?_⟩
      · simpa using List.find?_some hf
      · unfold checkNodes
        rw [checkNode_table_reject sql ts hd hts hty hb y hf]
    | none =>
      have hhd : ∀ y ∈ extractTableNames hd, y ∈ ts := by
        intro y hy
        have := List.find?_eq_none.mp hf y hy
        simpa using this
      have hclean : checkNode sql (some ts) hd = none := by
        unfold checkNode
        dsimp only
        rw [if_pos hty, hb, if_pos hts, hf]
      have hntl : n ∈ tl := by
        rcases List.mem_cons.mp hn with hn | hn
        · subst hn; exact absurd (hhd x hx) hxts
        · exact hn
      obtain ⟨z, hz1, ⟨m, hm, hz2⟩, hz3⟩ :=
        ih (fun n hn => hall n (List.mem_cons_of_mem _ hn)) ⟨n, hntl, x, hx, hxts⟩
      refine ⟨z, hz1, ⟨m, List.mem_cons_of_mem _ hm, hz2⟩, ?_⟩
      unfold checkNodes
      rw [hclean]
      exact hz3

/-! ## Concrete inputs for the claims -/

/-- A response with a non-`SUCCESS` code marker and no extractable SQL
statement: the no-SQL fallback (part_007 lines 250-259) then fills `sql`
from the marker-stripped response. -/
def noDataResponse : String := "NO_DATA: nothing matched your filters in this database"

/-- The end-to-end scenario input of spec section 8. -/
def schemaMismatchResponse : String :=
  "SCHEMA_MISMATCH: the table " ++ aq ++ "invoices" ++ aq ++
    " does not exist\n\nEXPLANATION: No invoices table in this schema."

/-- The `sql` value `parseAIResponse` actually produces on
`schemaMismatchResponse`: the response with the leading code marker
stripped and trimmed, as filled by the no-SQL fallback. -/
def schemaMismatchSql : String :=
  "the table " ++ aq ++ "invoices" ++ aq ++
    " does not exist\n\nEXPLANATION: No invoices table in this schema."

/-- A `CODE:SUCCESS` response whose extracted SQL body has exactly 51
non-blank lines (one `SELECT` opener and 50 continuation lines). -/
def fiftyOneLineResponse : String :=
  "CODE:SUCCESS\nSELECT" ++ String.join (List.replicate 50 "\nx")

/-! ## Claims about the classifier -/

/-- Claim C1, counterexample: the claimed invariant
`code != SUCCESS ⇒ sql == ""` fails on the code — on
`NO_DATA: nothing matched your filters in this database` the outcome has
code `NO_DATA` but a non-empty `sql`, populated by the no-SQL fallback of
part_007 lines 250-259. -/
theorem spec_C1_counterexample :
    (parseAIResponse noDataResponse).code ≠ .SUCCESS ∧
      (parseAIResponse noDataResponse).sql ≠ "" := by decide

/-- Claim C1, amended: the `sql` field of a `parseAIResponse` outcome is
contractually empty when the returned code is `NOT_SQL_REQUEST` or
`COMPLEX_QUERY` (the two codes cleared by the final return); for the
remaining non-`SUCCESS` codes the fallback may leave `sql` populated. -/
theorem spec_C1_amended_sql_empty (r : String)
    (h : (parseAIResponse r).code = .NOT_SQL_REQUEST ∨
         (parseAIResponse r).code = .COMPLEX_QUERY) :
    (parseAIResponse r).sql = "" :=
  finalize_sql_of _ h

/-- Witness for the amended claim C1 at a concrete NSR input. -/
theorem spec_C1_witness :
    (parseAIResponse ("CODE:NOT_SQL_REQUEST")).sql = "" :=
  spec_C1_amended_sql_empty _ (Or.inl (by decide))

/-- Claim C5: whenever the detected code resolves to `NOT_SQL_REQUEST` —
via a marker or via the override detected inside the would-be SQL field —
the outcome's `sql` is empty, regardless of the SQL field's text. -/
theorem spec_C5_nsr_sql_empty (r : String)
    (h : (parseAIResponse r).code = .NOT_SQL_REQUEST) :
    (parseAIResponse r).sql = "" :=
  finalize_sql_of _ (Or.inl h)

/-- Witness for claim C5 at an input where NSR is detected via the
SQL-field override rather than a code marker. -/
theorem spec_C5_witness :
    (parseAIResponse
      ("SQL_STATEMENT: NOT_SQL_REQUEST\nEXPLANATION: This is not a SQL request")).sql
      = "" :=
  spec_C5_nsr_sql_empty _ (by decide)

/-- Claim C9: `parseAIResponse` is total (it is a Lean function, defined
for every string, hence never raises); the empty string yields `SUCCESS`
with empty `sql`, and every outcome is well-formed in that its message is
the static table entry of its code. -/
theorem spec_C9_total :
    parseAIResponse ("") = ⟨.SUCCESS, codeMessages .SUCCESS, "", ""⟩ ∧
      ∀ r : String, (parseAIResponse r).message = codeMessages (parseAIResponse r).code :=
  ⟨by decide, fun r => parseCore_inv r.data⟩

/-- Claim C4: when the state reaching the 50-line check carries code
`SUCCESS` and a SQL body of more than 50 non-blank lines, the outcome is
coerced to `COMPLEX_QUERY` with the fixed message and empty `sql`, and an
explanation noting the line count is synthesized when none was extracted. -/
theorem spec_C4_fifty_line_ceiling (r : String)
    (hc : (preCountState r.data).code = .SUCCESS)
    (hn : 50 < countNonBlank (preCountState r.data).sql) :
    parseAIResponse r = ⟨.COMPLEX_QUERY, codeMessages .COMPLEX_QUERY, "",
      ⟨if (preCountState r.data).explanation = []
        then synthExpl (countNonBlank (preCountState r.data).sql)
        else (preCountState r.data).explanation⟩⟩ := by
  unfold parseAIResponse parseCore
  rw [lineCountStage_trigger (preCountState r.data) hc hn]
  have hcode := fallbackStage_code r.data
    ⟨.COMPLEX_QUERY, codeMessages .COMPLEX_QUERY, [],
      if (preCountState r.data).explanation = []
        then synthExpl (countNonBlank (preCountState r.data).sql)
        else (preCountState r.data).explanation⟩
  rw [lineCountStage_of_ne _ (by rw [hcode]; intro hcon; cases hcon)]
  unfold finalize
  rw [hcode, fallbackStage_message, fallbackStage_explanation]
  rw [if_pos (Or.inr rfl)]

/-- Witness for claim C4 at a concrete 51-non-blank-line `CODE:SUCCESS`
response. -/
theorem spec_C4_witness :
    parseAIResponse fiftyOneLineResponse =
      ⟨.COMPLEX_QUERY, codeMessages .COMPLEX_QUERY, "", ⟨synthExpl 51⟩⟩ := by
  rw [spec_C4_fifty_line_ceiling fiftyOneLineResponse (by decide) (by decide)]
  decide

/-- Claim C8, counterexample: on the exact spec scenario input the code
and explanation are as claimed but `sql` is not empty — the no-SQL
fallback fills it. -/
theorem spec_C8_counterexample :
    (parseAIResponse schemaMismatchResponse).code = .SCHEMA_MISMATCH ∧
      (parseAIResponse schemaMismatchResponse).sql ≠ "" := by decide

/-- Claim C8, amended: the scenario input yields code `SCHEMA_MISMATCH`,
the fixed schema-mismatch message and the claimed explanation, but `sql`
equals the marker-stripped trimmed response (filled by the no-SQL
fallback), not the empty string. -/
theorem spec_C8_amended :
    parseAIResponse schemaMismatchResponse =
      ⟨.SCHEMA_MISMATCH, codeMessages .SCHEMA_MISMATCH, schemaMismatchSql,
        ("No invoices table in this schema.")⟩ := by decide

/-! ## Claims about the safety gate -/

/-- The batch input of spec section 8's fail-closed test. -/
def dropRoleSql : String := "SELECT * FROM a; DROP ROLE x;"

/-- The JOIN input of the table allow-list test. -/
def joinSql : String := "SELECT * FROM students s JOIN unauthorized o ON s.id=o.student_id"

/-- The accepted input of the table allow-list test. -/
def studentsSql : String := "SELECT * FROM students"

/-- The statement node `node-sql-parser` produces for `joinSql`: a select
node whose `from` array holds both the base table and the joined table as
bare string references. -/
def joinNode : ASTNode :=
  ⟨("select"), some [⟨some (.str ("students")), none⟩,
    ⟨some (.str ("unauthorized")), none⟩], none⟩

/-- Single-statement astify result for `joinSql`. -/
def joinAst : AstifyResult := .single joinNode

/-- The statement node for `studentsSql`. -/
def studentsNode : ASTNode := ⟨("select"), some [⟨some (.str ("students")), none⟩], none⟩

/-- Single-statement astify result for `studentsSql`. -/
def studentsAst : AstifyResult := .single studentsNode

/-- A select over table `t`, for the empty-allow-list counterexample. -/
def tRefSql : String := "SELECT * FROM t"

/-- Its statement node. -/
def tRefNode : ASTNode := ⟨("select"), some [⟨some (.str ("t")), none⟩], none⟩

/-- Its astify result. -/
def tRefAst : AstifyResult := .single tRefNode

/-- First statement of the `dropRoleSql` batch. -/
def selANode : ASTNode := ⟨("select"), some [⟨some (.str ("a")), none⟩], none⟩

/-- Second statement of the `dropRoleSql` batch. -/
def dropXNode : ASTNode := ⟨("drop"), none, none⟩

/-- A two-statement astify result for `dropRoleSql`. -/
def dropRoleAst : AstifyResult := .arr [.node selANode, .node dropXNode]

/-- A minimal accepted input for the C2 witness. -/
def simpleSelectSql : String := "SELECT * FROM a"

/-- Its astify result. -/
def simpleSelectAst : AstifyResult := .single selANode

/-- Claim C10: `validateSql("")` is rejected by the initial falsy check
and `validateSql("   ")` by the semicolon-split pre-check, both with
reason `Empty SQL`, before the parser is ever consulted (the result is
independent of the oracle and of the table list). -/
theorem spec_C10_empty_rejection (a : Option (List String))
    (o : Except String AstifyResult) :
    validateSql ("") a o = .err ("Empty SQL") ∧
      validateSql ("   ") a o = .err ("Empty SQL") :=
  ⟨rfl, rfl⟩

/-- Claim C2: an accepting `validateSql` run (over a parse with at least
one statement, which a successful `astify` call always yields) implies
every statement kind is in the allow-list and no blocked pattern matches
the raw input text. -/
theorem spec_C2_ok_implies_allowlist (sql : String) (a : Option (List String))
    (ast sts : AstifyResult) (hne : flattenAst ast ≠ [])
    (h : validateSql sql a (.ok ast) = .ok sts) :
    (∀ n ∈ flattenAst ast, lowerS n.type ∈ ALLOWED_TYPES) ∧
      ∀ p ∈ BLOCKED_PATTERNS, bpatMatch (lowerL sql.data) p.1 = false := by
  have hchk := validateSql_ok_checkNodes sql a ast sts h
  constructor
  · intro n hn
    exact checkNode_none_type sql a n (checkNodes_none sql a _ hchk n hn)
  · obtain ⟨hd, tl, heq⟩ : ∃ hd tl, flattenAst ast = hd :: tl := by
      cases hl : flattenAst ast with
      | nil => exact absurd hl hne
      | cons hd tl => exact ⟨hd, tl, rfl⟩
    have hcn : checkNode sql a hd = none := by
      apply checkNodes_none sql a _ hchk
      rw [heq]
      exact List.mem_cons_self _ _
    have hb := checkNode_none_blocked sql a hd hcn
    intro p hp
    unfold blockedFirstMatch at hb
    have hfind := Option.map_eq_none'.mp hb
    have hnone := List.find?_eq_none.mp hfind p hp
    simpa using hnone

/-- Witness for claim C2 at a concrete accepted input. -/
theorem spec_C2_witness :
    lowerS selANode.type ∈ ALLOWED_TYPES ∧
      bpatMatch (lowerL simpleSelectSql.data)
        (BPat.kw ⟨("drop").data, ("role").data, true⟩) = false := by
  have h := spec_C2_ok_implies_allowlist simpleSelectSql none
    simpleSelectAst simpleSelectAst (by decide) (by decide)
  exact ⟨h.1 selANode (by decide),
    h.2 (BPat.kw ⟨("drop").data, ("role").data, true⟩, ("DROP ROLE")) (by decide)⟩

/-- Claim C3, counterexample: when `allowedTables` is provided as the
empty list, the table check is skipped entirely (validation.ts line 203
requires `allowedTables.length > 0`), so a query referencing table `t`
is accepted even though `t` is not a member of the empty list. -/
theorem spec_C3_counterexample :
    validateSql tRefSql (some []) (.ok tRefAst) = .ok tRefAst ∧
      ("t") ∈ extractTableNames tRefNode ∧ ("t") ∉ ([] : List String) := by decide

/-- Claim C3, amended: when `allowedTables` is provided and non-empty,
an accepting run means every referenced table of every statement is a
member, and a run whose statements pass the kind and blocked-pattern
checks but reference a table outside the list rejects with the offending
table name in the reason. -/
theorem spec_C3_amended_nonempty_allowlist :
    (∀ (sql : String) (ts : List String) (ast sts : AstifyResult), ts ≠ [] →
        validateSql sql (some ts) (.ok ast) = .ok sts →
        ∀ n ∈ flattenAst ast, ∀ x ∈ extractTableNames n, x ∈ ts) ∧
      (∀ (sql : String) (ts : List String) (ast : AstifyResult), ts ≠ [] →
        sql ≠ "" → stmtsOf sql ≠ [] →
        (∀ n ∈ flattenAst ast, lowerS n.type ∈ ALLOWED_TYPES) →
        blockedFirstMatch sql = none →
        (∃ n ∈ flattenAst ast, ∃ x ∈ extractTableNames n, x ∉ ts) →
        ∃ x, x ∉ ts ∧ (∃ n ∈ flattenAst ast, x ∈ extractTableNames n) ∧
          validateSql sql (some ts) (.ok ast) = .err (tableErrMsg x ts)) := by
  constructor
  · intro sql ts ast sts hts h n hn x hx
    exact checkNode_none_tables sql ts n hts
      (checkNodes_none sql (some ts) _
        (validateSql_ok_checkNodes sql (some ts) ast sts h) n hn) x hx
  · intro sql ts ast hts h1 h2 hall hb hex
    obtain ⟨x, hx1, hx2, hx3⟩ :=
      checkNodes_table_reject sql ts hts hb (flattenAst ast) hall hex
    refine ⟨x, hx1, hx2, ?_⟩
    rw [validateSql_ok_eq sql (some ts) ast h1 h2, hx3]

/-- Witness for the amended claim C3 at the accepted `studentsSql` input. -/
theorem spec_C3_witness : ("students") ∈ [("students")] :=
  spec_C3_amended_nonempty_allowlist.1 studentsSql [("students")]
    studentsAst studentsAst (by decide) (by decide)
    studentsNode (by decide) ("students") (by decide)

/-- Claim C6: on `SELECT * FROM a; DROP ROLE x;` validation fails closed:
`select` and `drop` are both allow-listed kinds, a parser throw is
rejected as a parse error, and any successful parse (whose first
statement has an allow-listed kind) is rejected by the blocked pattern
`DROP ROLE`, which is tested against the whole raw text for every
statement. -/
theorem spec_C6_drop_role_blocked :
    (("select") ∈ ALLOWED_TYPES ∧ ("drop") ∈ ALLOWED_TYPES) ∧
      (∀ (a : Option (List String)) (e : String),
        validateSql dropRoleSql a (.error e) = .err (("SQL parse error: ") ++ e)) ∧
      ∀ (a : Option (List String)) (ast : AstifyResult) (n : ASTNode)
        (rest : List ASTNode), flattenAst ast = n :: rest →
        lowerS n.type ∈ ALLOWED_TYPES →
        validateSql dropRoleSql a (.ok ast) = .err (blockedErrMsg ("DROP ROLE")) := by
  refine ⟨⟨by decide, by decide⟩, ?_, ?_⟩
  · intro a e
    exact validateSql_parse_error dropRoleSql a e (by decide) (by decide)
  · intro a ast n rest hflat hty
    rw [validateSql_ok_eq dropRoleSql a ast (by decide) (by decide), hflat]
    have hcn : checkNode dropRoleSql a n = some (blockedErrMsg ("DROP ROLE")) := by
      unfold checkNode
      dsimp only
      rw [if_pos hty, (by decide : blockedFirstMatch dropRoleSql = some ("DROP ROLE"))]
    unfold checkNodes
    rw [hcn]

/-- Witness for claim C6 at a concrete two-statement parse. -/
theorem spec_C6_witness :
    validateSql dropRoleSql none (.ok dropRoleAst) = .err (blockedErrMsg ("DROP ROLE")) :=
  spec_C6_drop_role_blocked.2.2 none dropRoleAst selANode [dropXNode]
    (by decide) (by decide)

/-- Claim C7: with allow-list `["students"]`, the JOIN query referencing
`unauthorized` is rejected naming that table, and the plain query over
`students` is accepted. -/
theorem spec_C7_table_allowlist :
    validateSql joinSql (some [("students")]) (.ok joinAst)
        = .err (tableErrMsg ("unauthorized") [("students")]) ∧
      validateSql studentsSql (some [("students")]) (.ok studentsAst)
        = .ok studentsAst := by decide

end QueryLab
